import Mathlib

/-!
Shallow embedding of the `fastapi_concepts_hands_on` example applications.

The process-wide registries (`MODELS`, `USERS`) are Python `dict`s: ordered
association lists with unique keys.  We embed them as `List (String × β)`
together with the three operations the endpoints use: key membership /
lookup (`d[k]`, `k in d`), insertion of a fresh key (`d[k] = v`, which for a
new key appends at the end), and deletion (`del d[k]`).  HTTP failures
(`HTTPException(status_code, detail)`) become an error value carried in
`Except`; a successful endpoint call carries the route decorator's status
code next to the returned body.
-/

set_option autoImplicit false

/-- `Python: d[k]` / `d.get(k)` on a dict embedded as an association list:
the value at the first matching key. -/
def lookupKey {β : Type} : List (String × β) → String → Option β
  | [], _ => none
  | (k, v) :: rest, key => if k = key then some v else lookupKey rest key

/-- `Python: del d[k]`: remove the (unique) entry with the given key. -/
def eraseKey {β : Type} : List (String × β) → String → List (String × β)
  | [], _ => []
  | (k, v) :: rest, key => if k = key then rest else (k, v) :: eraseKey rest key

/-- `Python: len(s.split())`: number of maximal whitespace-free chunks. -/
def wordCount (s : String) : Int :=
  (((s.split (fun c => c.isWhitespace)).filter (fun w => w ≠ "")).length : Int)

/-- `fastapi.HTTPException(status_code=..., detail=...)`. -/
structure HTTPError where
  status_code : Nat
  detail : String
deriving Repr, DecidableEq

/-- Outcome of one endpoint call: the decorator's success status code with
the response body, or a raised `HTTPException`. -/
inductive ApiResult (α : Type) where
  | ok : Nat → α → ApiResult α
  | err : HTTPError → ApiResult α
deriving Repr, DecidableEq

/-- The HTTP status code a caller sees for an endpoint outcome. -/
def ApiResult.status {α : Type} : ApiResult α → Nat
  | .ok s _ => s
  | .err e => e.status_code

namespace MP1

/-! ### mini_project_01.py -/

/-- `class Provider(str, Enum)`. -/
inductive Provider where
  | openai
  | anthropic
  | meta
  | litellm
deriving Repr, DecidableEq

/-- `class ModelInfo(BaseModel)`. -/
structure ModelInfo where
  id : String
  model_name : String
  provider : Provider
  max_tokens : Int
deriving Repr, DecidableEq

/-- The seed `MODELS` dict of mini_project_01. -/
def MODELS : List (String × ModelInfo) :=
  [ ("gpt-4", ⟨"gpt-4", "GPT-4", .openai, 8192⟩),
    ("claude-opus-4-5", ⟨"claude-opus-4-5", "Claude Opus 4.5", .anthropic, 8192⟩),
    ("llama-3.1", ⟨"llama-3.1", "LLaMA 3.1", .meta, 4096⟩),
    ("gpt-5", ⟨"gpt-5", "GPT-5", .litellm, 16384⟩),
    ("claude-sonnet-4-5", ⟨"claude-sonnet-4-5", "Claude Sonnet 4.5", .anthropic, 16384⟩) ]

/-- `GET /models`: list registered models, optionally filtered by provider,
truncated to `limit` (query-validated to `1 ≤ limit ≤ 100`). -/
def list_models (models : List (String × ModelInfo)) (provider : Option Provider)
    (limit : Nat) : List ModelInfo :=
  let ms := models.map Prod.snd
  let ms : List ModelInfo := match provider with
    | some p => ms.filter (fun m => m.provider = p)
    | none => ms
  ms.take limit

/-- `GET /models/{model_id}`: detail of one model, 404 when the id is not a
key of the registry. -/
def get_model (models : List (String × ModelInfo)) (model_id : String) :
    ApiResult ModelInfo :=
  match lookupKey models model_id with
  | none => .err ⟨404, s!"Model {model_id} not found"⟩
  | some m => .ok 200 m

/-- `POST /models` (status 201): register a new model; 400 when the id is
already a key.  Returns the outcome together with the registry afterwards. -/
def create_model (models : List (String × ModelInfo)) (model_info : ModelInfo) :
    ApiResult ModelInfo × List (String × ModelInfo) :=
  match lookupKey models model_info.id with
  | some _ => (.err ⟨400, s!"Model with ID {model_info.id} already exists"⟩, models)
  | none => (.ok 201 model_info, models ++ [(model_info.id, model_info)])

/-- `DELETE /models/{model_id}` (status 204, empty body): remove a model;
404 when the id is not a key.  Returns the outcome together with the
registry afterwards. -/
def delete_model (models : List (String × ModelInfo)) (model_id : String) :
    ApiResult Unit × List (String × ModelInfo) :=
  match lookupKey models model_id with
  | none => (.err ⟨404, s!"Model {model_id} not found"⟩, models)
  | some _ => (.ok 204 (), eraseKey models model_id)

end MP1

namespace DepCaching

/-! ### 06_4_working_with_dependency_caching.py

FastAPI resolves every `Depends(get_settings)` marker through a per-request
cache (`use_cache=True`, the default), so the body of `get_settings` runs at
most once per request.  The cache and a counter of body executions (the
observable side effect is the `print` in `get_settings`) form the
per-request resolver state. -/

/-- `class Settings(BaseSettings)`: every field has a default, and
`Settings()` is built from the defaults. -/
structure Settings where
  app_name : String := "GenAI Backend"
  openai_api_key : String := "sk-test-key"
  anthropic_api_key : String := "ant-test-key"
  default_model : String := "gpt-4"
  max_tokens : Int := 8192
deriving Repr, DecidableEq

/-- Per-request dependency-resolution state: the memoized `get_settings`
result, and how many times the body of `get_settings` has run. -/
structure CacheState where
  settingsCache : Option Settings
  loadCount : Nat
deriving Repr, DecidableEq

/-- The state at the start of a request: empty cache, no executions. -/
def freshState : CacheState := ⟨none, 0⟩

/-- `def get_settings() -> Settings`: the raw step body.  Running it prints
(counted in `loadCount`) and returns `Settings()`. -/
def get_settings (st : CacheState) : Settings × CacheState :=
  ({}, { st with loadCount := st.loadCount + 1 })

/-- One resolution of `Depends(get_settings)`: return the cached value when
present, otherwise run the body and cache its result. -/
def resolveSettings (st : CacheState) : Settings × CacheState :=
  match st.settingsCache with
  | some s => (s, st)
  | none =>
    let (s, st1) := get_settings st
    (s, { st1 with settingsCache := some s })

/-- A failure during resolution: an `HTTPException`, or the `ValueError`
raised by `get_api_key_for_model` (which the framework surfaces as a 500). -/
inductive ChatError where
  | http : HTTPError → ChatError
  | valueError : String → ChatError
deriving Repr, DecidableEq

/-- `def get_api_key_for_model(model_name, settings)`: choose the API key by
provider prefix, `ValueError` for an unsupported model. -/
def get_api_key_for_model (model_name : String) (settings : Settings) :
    Except ChatError String :=
  if model_name.startsWith "gpt" then .ok settings.openai_api_key
  else if model_name.startsWith "claude" then .ok settings.anthropic_api_key
  else .error (.valueError "Unsupported model")

/-- `def validate_max_tokens(requested_tokens, settings)`: 400 when the
request exceeds the configured ceiling. -/
def validate_max_tokens (requested_tokens : Int) (settings : Settings) :
    Except ChatError Int :=
  if requested_tokens > settings.max_tokens then
    let m := settings.max_tokens
    .error (.http ⟨400, s!"Requested max tokens exceed the limit of {m}"⟩)
  else .ok requested_tokens

/-- The body returned by `POST /chat`. -/
structure ChatOut where
  app_name : String
  response : String
  api_key_used : String
  tokens_validated : Int
deriving Repr, DecidableEq

/-- The outcome of resolving and running `POST /chat` on one request:
the endpoint result, the final resolver state, and the settings value each
consumer observed, in resolution order (the endpoint's own `settings`
parameter, then `get_api_key_for_model`, then `validate_max_tokens`). -/
structure Resolution where
  result : Except ChatError ChatOut
  finalState : CacheState
  observed : List Settings
deriving Repr

/-- `POST /chat`: FastAPI resolves the three `Depends` parameters in
declaration order, each `get_settings` occurrence going through the
per-request cache; the first failing dependency aborts the rest. -/
def chat (model_name : String) (max_tokens : Int) (st0 : CacheState) : Resolution :=
  let (settings, st1) := resolveSettings st0
  let (s2, st2) := resolveSettings st1
  match get_api_key_for_model model_name s2 with
  | .error e => ⟨.error e, st2, [settings, s2]⟩
  | .ok api_key =>
    let (s3, st3) := resolveSettings st2
    match validate_max_tokens max_tokens s3 with
    | .error e => ⟨.error e, st3, [settings, s2, s3]⟩
    | .ok tokens_validated =>
      ⟨.ok { app_name := settings.app_name,
             response := s!"Simulated response from model '{model_name}' with max tokens {max_tokens}",
             api_key_used := api_key,
             tokens_validated := tokens_validated },
       st3, [settings, s2, s3]⟩

end DepCaching

namespace DepChain

/-! ### 06_3_working_with_dependency_chain.py

The `/chat` endpoint sits under a three-level dependency chain:
`verify_api_key` → `get_current_user` → `check_token_usage` → handler.
Each level prints when it runs; the `Step` trace records which levels
actually executed for a request. -/

/-- `class User(BaseModel)`. -/
structure User where
  id : Int
  email : String
  tokens_used : Int
  token_limit : Int
deriving Repr, DecidableEq

/-- The seed `USERS` dict keyed by API key. -/
def USERS : List (String × User) :=
  [ ("key-123", ⟨1, "user1@example.com", 250, 1000⟩),
    ("key-456", ⟨2, "user2@example.com", 1500, 5000⟩) ]

/-- One level of the chain, or the handler body. -/
inductive Step where
  | verify
  | getUser
  | checkUsage
  | handler
deriving Repr, DecidableEq

/-- The body returned by `POST /chat`. -/
structure ChatResult where
  response : String
  user_email : String
  tokens_used : Int
  token_limit : Int
  remaining_tokens : Int
deriving Repr, DecidableEq

/-- `POST /chat` under the chain, for a request whose `X-API-Key` header is
`x_api_key`: `verify_api_key` 401s on an unknown key; `get_current_user`
looks the user up; `check_token_usage` 403s when the limit is reached;
the handler then charges `len(prompt.split()) + 10` tokens against the
user record (mutating the registry entry) and echoes the prompt.
Returns (result, executed steps in order, registry afterwards). -/
def runChat (users : List (String × User)) (x_api_key : String) (prompt : String) :
    Except HTTPError ChatResult × List Step × List (String × User) :=
  match lookupKey users x_api_key with
  | none => (.error ⟨401, "Invalid API Key"⟩, [.verify], users)
  | some user =>
    if user.tokens_used ≥ user.token_limit then
      (.error ⟨403, "Token limit exceeded"⟩, [.verify, .getUser, .checkUsage], users)
    else
      let used := user.tokens_used + wordCount prompt + 10
      ( .ok { response := s!"Echoing your message: '{prompt}'",
              user_email := user.email,
              tokens_used := used,
              token_limit := user.token_limit,
              remaining_tokens := user.token_limit - used },
        [.verify, .getUser, .checkUsage, .handler],
        users.map (fun p =>
          if p.1 = x_api_key then (p.1, { user with tokens_used := used }) else p) )

end DepChain

namespace MP2

/-! ### mini_project_02.py -/

/-- `class Provider(str, Enum)`. -/
inductive Provider where
  | openai
  | anthropic
  | meta
  | litellm
deriving Repr, DecidableEq

/-- `class Settings(BaseModel)`: defaults only.  The float `TEMPERATURE`
field is not used by any embedded operation and is omitted. -/
structure Settings where
  DEFAULT_MODEL : String := "gpt-4"
  MAX_TOKENS : Int := 1000
  RATE_LIMIT : Int := 10
deriving Repr, DecidableEq

/-- `class User(BaseModel)`. -/
structure User where
  id : Int
  email : String
  tier : String
deriving Repr, DecidableEq

/-- `class Message(BaseModel)`. -/
structure Message where
  role : String
  content : String
deriving Repr, DecidableEq

/-- `class ChatRequest(BaseModel)`.  `max_tokens` is query-validated to
`1 < max_tokens < 4096` with default 1000; the float `temperature` field is
not used by any embedded operation and is omitted. -/
structure ChatRequest where
  model : Option String := none
  messages : List Message
  max_tokens : Int := 1000
deriving Repr, DecidableEq

/-- `class ChatResponse(BaseModel)`: `tokens_used` is the
`{"input": _, "output": _}` dict, embedded as the two counters. -/
structure ChatResponse where
  id : String
  model : String
  content : String
  tokens_input : Int
  tokens_output : Int
deriving Repr, DecidableEq

/-- `class ModelInfo(BaseModel)`. -/
structure ModelInfo where
  id : String
  model_name : String
  provider : Provider
  max_tokens : Int
deriving Repr, DecidableEq

/-- The seed `MODELS` dict of mini_project_02. -/
def MODELS : List (String × ModelInfo) :=
  [ ("gpt-4", ⟨"gpt-4", "GPT-4", .openai, 8192⟩),
    ("claude-opus-4-5", ⟨"claude-opus-4-5", "Claude Opus 4.5", .anthropic, 8192⟩),
    ("llama-3.1", ⟨"llama-3.1", "LLaMA 3.1", .meta, 4096⟩),
    ("gpt-5", ⟨"gpt-5", "GPT-5", .litellm, 16384⟩),
    ("claude-sonnet-4-5", ⟨"claude-sonnet-4-5", "Claude Sonnet 4.5", .anthropic, 16384⟩) ]

/-- The seed `USERS` dict keyed by API key. -/
def USERS : List (String × User) :=
  [ ("key-123", ⟨1, "user1@example.com", "free"⟩),
    ("key-456", ⟨2, "user2@example.com", "pro"⟩),
    ("admin-123", ⟨0, "admin@example.com", "admin"⟩) ]

/-- The process-wide registries an endpoint can read or mutate. -/
structure AppState where
  models : List (String × ModelInfo)
  users : List (String × User)
deriving Repr, DecidableEq

/-- `def authenticate_user(x_api_key: str = Header(...))`: 401 on a key
that is not in `USERS`. -/
def authenticate_user (users : List (String × User)) (x_api_key : String) :
    Except HTTPError User :=
  match lookupKey users x_api_key with
  | none => .error ⟨401, "Invalid API Key"⟩
  | some u => .ok u

/-- `def get_settings() -> Settings`: always `Settings()`. -/
def get_settings : Settings := {}

/-- `def validate_model(model_id)`: 404 on an unknown model id. -/
def validate_model (models : List (String × ModelInfo)) (model_id : String) :
    Except HTTPError ModelInfo :=
  match lookupKey models model_id with
  | none => .error ⟨404, s!"Model {model_id} not found"⟩
  | some m => .ok m

/-- A protected endpoint behind `Depends(authenticate_user)`.  The
`x_api_key: str = Header(...)` parameter is required, so the framework
rejects a request missing the header with a 422 validation response before
the dependency (let alone the handler) runs; an unknown key raises the
dependency's 401.  Only when authentication succeeds does the handler body
run.  Returns (outcome, registries afterwards, whether the handler ran). -/
def runProtected {R : Type} (handler : User → AppState → ApiResult R × AppState)
    (st : AppState) (x_api_key : Option String) :
    ApiResult R × AppState × Bool :=
  match x_api_key with
  | none => (.err ⟨422, "Field required"⟩, st, false)
  | some k =>
    match authenticate_user st.users k with
    | .error e => (.err e, st, false)
    | .ok u =>
      let (r, st1) := handler u st
      (r, st1, true)

/-- `GET /models` of mini_project_02 as a handler behind
`Depends(authenticate_user)`: list registered models, optionally filtered
by provider, truncated to `limit`; reads the registries, mutates nothing. -/
def list_models (provider : Option Provider) (limit : Nat) (_user : User)
    (st : AppState) : ApiResult (List ModelInfo) × AppState :=
  let ms : List ModelInfo := st.models.map Prod.snd
  let ms : List ModelInfo := match provider with
    | some p => ms.filter (fun m => m.provider = p)
    | none => ms
  (.ok 200 (ms.take limit), st)

/-- Python `x or y` for an optional string `x`: `y` exactly when `x` is
falsy, i.e. `None` or the empty string. -/
def orDefault (x : Option String) (y : String) : String :=
  match x with
  | none => y
  | some s => if s = "" then y else s

/-- `POST /chat/completions` (status 201) for an authenticated `user`:
validate `request.model or settings.DEFAULT_MODEL` (Python `or`, so an
empty-string model also falls back to the default), apply the free-tier
token ceiling, then echo the last message.  `request.messages[-1]` raises
`IndexError` on an empty message list, which the framework surfaces as a
500 response. -/
def create_chat_completion (models : List (String × ModelInfo))
    (request : ChatRequest) (user : User) : ApiResult ChatResponse :=
  let settings := get_settings
  match validate_model models (orDefault request.model settings.DEFAULT_MODEL) with
  | .error e => .err e
  | .ok model_info =>
    if user.tier = "free" ∧ request.max_tokens > 1000 then
      .err ⟨403, "Free tier users can only request up to 1000 max tokens"⟩
    else
      match request.messages.getLast? with
      | none => .err ⟨500, "Internal Server Error"⟩
      | some last =>
        let c := last.content
        .ok 201
          { id := "response-123",
            model := model_info.id,
            content := s!"This is a generated response based on your input: '{c}'",
            tokens_input := (request.messages.map (fun m => wordCount m.content)).sum,
            tokens_output := 10 }

end MP2

namespace ReqID

/-! ### 08_2_working_with_requestId_middleware.py

`RequestIDMiddleware.dispatch` reads `X-Request-ID` from the request (or
generates a fresh UUID, embedded as the `genId` parameter), stores it in
`request.state.request_id` before calling the endpoint, tags its own two
log lines with it, and writes it into the response's `X-Request-ID` header.
Every endpoint log line is tagged with `request.state.request_id`. -/

/-- One emitted log line: the `id=%s` interpolation and the rest of the
message. -/
structure LogLine where
  requestId : String
  msg : String
deriving Repr, DecidableEq

/-- A response as the middleware sees it: status code and headers. -/
structure Response where
  status : Nat
  headers : List (String × String)
deriving Repr, DecidableEq

/-- The `MODELS` list. -/
def MODELS : List String := ["claude-3", "gpt-4"]

/-- A stored conversation record. -/
structure Conversation where
  id : String
  title : String
  messages : Nat
deriving Repr, DecidableEq

/-- The `conversations` dict. -/
def conversations : List (String × Conversation) :=
  [ ("conv_1", ⟨"conv_1", "First chat", 5⟩),
    ("conv_2", ⟨"conv_2", "Second chat", 12⟩) ]

/-- Which endpoint the request hits, with its inputs (`chat` carries the
body's model and message count, the only parts the endpoint reads). -/
inductive Route where
  | health
  | getConversation : String → Route
  | chat : String → Nat → Route
deriving Repr, DecidableEq

/-- The endpoint body, run with `request.state.request_id` already set:
returns the response status and the endpoint's own log lines.  An
`HTTPException` raised here is turned into its error response by the
framework inside `call_next`, so the middleware still sees a response. -/
def call_endpoint (route : Route) (state_request_id : String) : Nat × List LogLine :=
  match route with
  | .health => (200, [])
  | .getConversation cid =>
    let l1 : LogLine := ⟨state_request_id, s!"fetching_conversation conv={cid}"⟩
    match lookupKey conversations cid with
    | none => (404, [l1, ⟨state_request_id, s!"conversation_not_found conv={cid}"⟩])
    | some _ => (200, [l1])
  | .chat model msg_count =>
    let l1 : LogLine := ⟨state_request_id, s!"chat_request model={model} msg_count={msg_count}"⟩
    if MODELS.contains model then
      (200, [l1, ⟨state_request_id, s!"llm_call provider=anthropic model={model}"⟩])
    else (404, [l1])

/-- `RequestIDMiddleware.dispatch`: pick the client id or the fresh one,
store it in the request state, log `request_start`, run the endpoint,
add the `X-Request-ID` response header, log `request_end`.  Returns the
response, all log lines in emission order, and the chosen request id. -/
def dispatch (genId : String) (xRequestIdHeader : Option String) (route : Route) :
    Response × List LogLine × String :=
  let request_id := xRequestIdHeader.getD genId
  let startLog : LogLine := ⟨request_id, "request_start"⟩
  let ep := call_endpoint route request_id
  let endLog : LogLine := ⟨request_id, s!"request_end status={ep.1}"⟩
  (⟨ep.1, [("X-Request-ID", request_id)]⟩,
   startLog :: ep.2 ++ [endLog],
   request_id)

end ReqID

namespace ErrCtx

/-! ### 07_4_working_with_error_handling_global_exception_with_request_context.py

`handle_unexpected` is the `@app.exception_handler(Exception)` catch-all:
it logs full diagnostic detail keyed by the request id and returns a fixed
generic 500 body.  The exception is embedded by the three pieces of detail
the handler can extract from it (`type(exc).__name__`, `str(exc)`, the
traceback rendered by `exc_info=True`); wall-clock timestamps are omitted. -/

/-- An unclassified (unexpected) failure, by its diagnostic detail. -/
structure Exc where
  typeName : String
  message : String
  traceback : String
deriving Repr, DecidableEq

/-- The JSON body of the catch-all 500 response. -/
structure ErrorBody where
  error : String
  message : String
  request_id : String
  support : String
deriving Repr, DecidableEq

/-- The server-side log record written by `logger.error(..., exc_info=True)`. -/
structure LogRecord where
  event : String
  request_id : String
  endpoint : String
  exception_type : String
  exception_message : String
  user_id : String
  traceback : String
deriving Repr, DecidableEq

/-- `async def handle_unexpected(request, exc)`: log everything keyed by
`request.state.request_id`, answer with status 500 and a generic body. -/
def handle_unexpected (request_id endpoint user_id : String) (exc : Exc) :
    LogRecord × (Nat × ErrorBody) :=
  ( { event := "unhandled_exception",
      request_id := request_id,
      endpoint := endpoint,
      exception_type := exc.typeName,
      exception_message := exc.message,
      user_id := user_id,
      traceback := exc.traceback },
    (500,
     { error := "internal_error",
       message := "An unexpected error occurred",
       request_id := request_id,
       support := "Include the request_id above when contacting support" }) )

end ErrCtx

/-! ### Association-list facts used by the registry claims -/

theorem lookupKey_eq_none_of_not_mem_keys {β : Type} (l : List (String × β))
    (k : String) (h : k ∉ l.map Prod.fst) : lookupKey l k = none := by
  induction l with
  | nil => rfl
  | cons p rest ih =>
    obtain ⟨k', v⟩ := p
    simp only [List.map_cons, List.mem_cons] at h
    push_neg at h
    have hk : ¬ k' = k := fun hk => h.1 hk.symm
    simp only [lookupKey, if_neg hk]
    exact ih h.2

theorem lookupKey_append_right {β : Type} (l m : List (String × β)) (k : String)
    (h : lookupKey l k = none) : lookupKey (l ++ m) k = lookupKey m k := by
  induction l with
  | nil => rfl
  | cons p rest ih =>
    obtain ⟨k', v⟩ := p
    by_cases hk : k' = k
    · subst hk
      simp [lookupKey] at h
    · simp only [lookupKey, if_neg hk] at h
      simpa only [List.cons_append, lookupKey, if_neg hk] using ih h

theorem lookupKey_eraseKey_self {β : Type} (l : List (String × β)) (k : String)
    (h : (l.map Prod.fst).Nodup) : lookupKey (eraseKey l k) k = none := by
  induction l with
  | nil => rfl
  | cons p rest ih =>
    obtain ⟨k', v⟩ := p
    simp only [List.map_cons, List.nodup_cons] at h
    by_cases hk : k' = k
    · simp only [eraseKey, if_pos hk]
      exact lookupKey_eq_none_of_not_mem_keys rest k (hk ▸ h.1)
    · simp only [eraseKey, if_neg hk, lookupKey, if_neg hk]
      exact ih h.2

/-- C7: for every model id absent from the registry the detail endpoint
fails with status 404 and detail `"Model {model_id} not found"`; in
particular `"gpt-99"` against the seed registry yields 404 with detail
`"Model gpt-99 not found"`. -/
theorem model_detail_not_found (models : List (String × MP1.ModelInfo))
    (model_id : String) (h : lookupKey models model_id = none) :
    MP1.get_model models model_id = .err ⟨404, s!"Model {model_id} not found"⟩ ∧
    MP1.get_model MP1.MODELS "gpt-99" = .err ⟨404, "Model gpt-99 not found"⟩ := by
  constructor
  · simp [MP1.get_model, h]
  · decide

/-- C7 witness: the literal scenario, through the theorem. -/
theorem model_detail_not_found_witness :
    MP1.get_model MP1.MODELS "gpt-99" = .err ⟨404, "Model gpt-99 not found"⟩ :=
  (model_detail_not_found [] "gpt-99" rfl).2

/-- C8: creating a model whose id is already a registry key fails with 400
and leaves the registry unchanged; creating one with a fresh id succeeds
with status 201, and afterwards the registry maps that id to the submitted
descriptor. -/
theorem create_model_duplicate_and_fresh (models : List (String × MP1.ModelInfo))
    (m : MP1.ModelInfo) :
    (∀ v, lookupKey models m.id = some v →
      MP1.create_model models m =
        (.err ⟨400, s!"Model with ID {m.id} already exists"⟩, models)) ∧
    (lookupKey models m.id = none →
      MP1.create_model models m = (.ok 201 m, models ++ [(m.id, m)]) ∧
      lookupKey (MP1.create_model models m).2 m.id = some m) := by
  constructor
  · intro v hv
    simp [MP1.create_model, hv]
  · intro h
    refine ⟨by simp [MP1.create_model, h], ?_⟩
    simp only [MP1.create_model, h]
    rw [lookupKey_append_right models [(m.id, m)] m.id h]
    simp [lookupKey]

/-- C8 witness: a duplicate id (400, registry untouched) and a fresh id
(201, then readable), both on the seed registry. -/
theorem create_model_duplicate_and_fresh_witness :
    MP1.create_model MP1.MODELS ⟨"gpt-4", "GPT-4 again", .openai, 1⟩ =
      (.err ⟨400, "Model with ID gpt-4 already exists"⟩, MP1.MODELS) ∧
    lookupKey (MP1.create_model MP1.MODELS ⟨"gpt-99", "GPT-99", .openai, 1⟩).2 "gpt-99" =
      some ⟨"gpt-99", "GPT-99", .openai, 1⟩ :=
  ⟨(create_model_duplicate_and_fresh MP1.MODELS ⟨"gpt-4", "GPT-4 again", .openai, 1⟩).1
      ⟨"gpt-4", "GPT-4", .openai, 8192⟩ (by decide),
   ((create_model_duplicate_and_fresh MP1.MODELS ⟨"gpt-99", "GPT-99", .openai, 1⟩).2
      (by decide)).2⟩

/-- C9: deleting a registered id succeeds with status 204 and an empty
body, and fetching the same id afterwards yields 404; deleting an absent
id yields 404 with the registry unchanged.  The key-uniqueness hypothesis
is the dict invariant of the Python registry. -/
theorem delete_then_fetch_not_found (models : List (String × MP1.ModelInfo))
    (model_id : String) (hnd : (models.map Prod.fst).Nodup) :
    (∀ v, lookupKey models model_id = some v →
      MP1.delete_model models model_id = (.ok 204 (), eraseKey models model_id) ∧
      MP1.get_model (MP1.delete_model models model_id).2 model_id =
        .err ⟨404, s!"Model {model_id} not found"⟩) ∧
    (lookupKey models model_id = none →
      MP1.delete_model models model_id =
        (.err ⟨404, s!"Model {model_id} not found"⟩, models)) := by
  constructor
  · intro v hv
    refine ⟨by simp [MP1.delete_model, hv], ?_⟩
    simp only [MP1.delete_model, hv]
    simp [MP1.get_model, lookupKey_eraseKey_self models model_id hnd]
  · intro h
    simp [MP1.delete_model, h]

/-- C9 witness: delete `"gpt-4"` from the seed registry, then fetch it
(404); delete the absent `"gpt-99"` (404, registry unchanged). -/
theorem delete_then_fetch_not_found_witness :
    MP1.get_model (MP1.delete_model MP1.MODELS "gpt-4").2 "gpt-4" =
      .err ⟨404, "Model gpt-4 not found"⟩ ∧
    MP1.delete_model MP1.MODELS "gpt-99" =
      (.err ⟨404, "Model gpt-99 not found"⟩, MP1.MODELS) :=
  ⟨((delete_then_fetch_not_found MP1.MODELS "gpt-4" (by decide)).1
      ⟨"gpt-4", "GPT-4", .openai, 8192⟩ (by decide)).2,
   (delete_then_fetch_not_found MP1.MODELS "gpt-99" (by decide)).2 (by decide)⟩

/-- C10: for every limit in the validated query range and every optional
provider filter, `GET /models` returns at most `limit` descriptors, each a
value of the registry; under a provider filter every returned descriptor
has that provider; with no filter and a registry smaller than the limit
the full registry contents come back in order. -/
theorem list_models_bounded_filtered (models : List (String × MP1.ModelInfo))
    (provider : Option MP1.Provider) (limit : Nat)
    (h1 : 1 ≤ limit) (h2 : limit ≤ 100) :
    (MP1.list_models models provider limit).length ≤ limit ∧
    (∀ m ∈ MP1.list_models models provider limit, m ∈ models.map Prod.snd) ∧
    (∀ p, provider = some p →
      ∀ m ∈ MP1.list_models models provider limit, m.provider = p) ∧
    (provider = none → (models.map Prod.snd).length < limit →
      MP1.list_models models provider limit = models.map Prod.snd) := by
  refine ⟨?_, ?_, ?_, ?_⟩
  · cases provider <;> simp [MP1.list_models, List.length_take]
  · intro m hm
    cases provider with
    | none => exact List.take_subset _ _ hm
    | some p =>
      have := List.take_subset _ _ hm
      exact (List.mem_filter.mp this).1
  · intro p hp m hm
    subst hp
    have := List.take_subset _ _ hm
    have := (List.mem_filter.mp this).2
    simpa using this
  · intro hp hlen
    subst hp
    exact List.take_of_length_le (le_of_lt hlen)

/-- C10 witness: the anthropic filter with the default limit on the seed
registry. -/
theorem list_models_bounded_filtered_witness :
    (MP1.list_models MP1.MODELS (some .anthropic) 10).length ≤ 10 ∧
    ∀ m ∈ MP1.list_models MP1.MODELS (some .anthropic) 10,
      m.provider = MP1.Provider.anthropic :=
  ⟨(list_models_bounded_filtered MP1.MODELS (some .anthropic) 10
      (by decide) (by decide)).1,
   (list_models_bounded_filtered MP1.MODELS (some .anthropic) 10
      (by decide) (by decide)).2.2.1 .anthropic rfl⟩

/-- C1: on every request to the dependency-caching `/chat` endpoint the
`get_settings` step body runs exactly once, although the endpoint, the
API-key helper and the max-tokens validator each declare it as a
dependency; every consumer that runs observes the same memoized settings
value, and on a request whose resolution reaches all three consumers each
of the three observes it. -/
theorem settings_resolved_once_per_request (model_name : String) (max_tokens : Int) :
    (DepCaching.chat model_name max_tokens DepCaching.freshState).finalState.loadCount = 1 ∧
    ∃ s,
      (DepCaching.chat model_name max_tokens DepCaching.freshState).finalState.settingsCache
        = some s ∧
      (∀ x ∈ (DepCaching.chat model_name max_tokens DepCaching.freshState).observed, x = s) ∧
      ((DepCaching.chat model_name max_tokens DepCaching.freshState).result.isOk = true →
        (DepCaching.chat model_name max_tokens DepCaching.freshState).observed = [s, s, s]) := by
  cases hk : DepCaching.get_api_key_for_model model_name {} with
  | error e =>
    refine ⟨?_, {}, ?_, ?_, ?_⟩ <;>
      simp [DepCaching.chat, DepCaching.resolveSettings, DepCaching.freshState,
        DepCaching.get_settings, hk, Except.isOk, Except.toBool]
  | ok k =>
    cases hv : DepCaching.validate_max_tokens max_tokens {} with
    | error e =>
      refine ⟨?_, {}, ?_, ?_, ?_⟩ <;>
        simp [DepCaching.chat, DepCaching.resolveSettings, DepCaching.freshState,
          DepCaching.get_settings, hk, hv, Except.isOk, Except.toBool]
    | ok t =>
      refine ⟨?_, {}, ?_, ?_, ?_⟩ <;>
        simp [DepCaching.chat, DepCaching.resolveSettings, DepCaching.freshState,
          DepCaching.get_settings, hk, hv, Except.isOk, Except.toBool]

/-- C1 witness: the cached-settings request at a supported model and an
in-range token count, through the theorem. -/
theorem settings_resolved_once_per_request_witness :
    (DepCaching.chat "gpt-4" 1000 DepCaching.freshState).finalState.loadCount = 1 :=
  (settings_resolved_once_per_request "gpt-4" 1000).1

/-- C2: in the three-level dependency chain behind `/chat`, an invalid API
key fails `verify_api_key` with 401 and neither the user-retrieval step,
the token-usage step, nor the handler runs; a token-limit failure fails
`check_token_usage` with 403 and the handler does not run; more generally
whenever the request fails the handler body never runs. -/
theorem chain_failure_short_circuits (users : List (String × DepChain.User))
    (x_api_key prompt : String) :
    (lookupKey users x_api_key = none →
      (DepChain.runChat users x_api_key prompt).1 = .error ⟨401, "Invalid API Key"⟩ ∧
      (DepChain.runChat users x_api_key prompt).2.1 = [.verify] ∧
      DepChain.Step.getUser ∉ (DepChain.runChat users x_api_key prompt).2.1 ∧
      DepChain.Step.checkUsage ∉ (DepChain.runChat users x_api_key prompt).2.1 ∧
      DepChain.Step.handler ∉ (DepChain.runChat users x_api_key prompt).2.1) ∧
    (∀ u, lookupKey users x_api_key = some u → u.tokens_used ≥ u.token_limit →
      (DepChain.runChat users x_api_key prompt).1 = .error ⟨403, "Token limit exceeded"⟩ ∧
      (DepChain.runChat users x_api_key prompt).2.1 = [.verify, .getUser, .checkUsage] ∧
      DepChain.Step.handler ∉ (DepChain.runChat users x_api_key prompt).2.1) ∧
    (∀ e, (DepChain.runChat users x_api_key prompt).1 = .error e →
      DepChain.Step.handler ∉ (DepChain.runChat users x_api_key prompt).2.1) := by
  refine ⟨?_, ?_, ?_⟩
  · intro h
    simp [DepChain.runChat, h]
  · intro u hu hlim
    simp [DepChain.runChat, hu, if_pos hlim]
  · intro e he
    cases h : lookupKey users x_api_key with
    | none => simp [DepChain.runChat, h]
    | some u =>
      by_cases hlim : u.tokens_used ≥ u.token_limit
      · simp [DepChain.runChat, h, if_pos hlim]
      · simp [DepChain.runChat, h, if_neg hlim] at he

/-- C2 witness: an unknown key against the seed registry, and an exhausted
user in a one-entry registry, both through the theorem. -/
theorem chain_failure_short_circuits_witness :
    DepChain.Step.handler ∉ (DepChain.runChat DepChain.USERS "key-999" "hello").2.1 ∧
    DepChain.Step.handler ∉
      (DepChain.runChat [("key-000", ⟨3, "user3@example.com", 1000, 1000⟩)]
        "key-000" "hello").2.1 :=
  ⟨((chain_failure_short_circuits DepChain.USERS "key-999" "hello").1
      (by decide)).2.2.2.2,
   ((chain_failure_short_circuits [("key-000", ⟨3, "user3@example.com", 1000, 1000⟩)]
      "key-000" "hello").2.1 ⟨3, "user3@example.com", 1000, 1000⟩
      (by decide) (by decide)).2.2⟩

/-- C3 counterexample: a request to the protected `GET /models` of
mini_project_02 with the `X-API-Key` header absent is rejected by the
framework's required-header validation with status 422, not 401. -/
theorem missing_credential_rejected_with_422 :
    (MP2.runProtected (MP2.list_models none 10) ⟨MP2.MODELS, MP2.USERS⟩ none).1.status
      = 422 ∧
    ¬ (MP2.runProtected (MP2.list_models none 10) ⟨MP2.MODELS, MP2.USERS⟩ none).1.status
      = 401 := by
  exact ⟨rfl, by decide⟩

/-- C3 (amended): a request to a credential-protected endpoint whose
required credential header is absent is rejected with a 422 validation
failure before the credential dependency runs, and one whose credential is
not in the static user registry is rejected with 401; in both cases the
handler body is not executed and the process-wide registries are
unchanged. -/
theorem unauthenticated_request_no_side_effect {R : Type}
    (handler : MP2.User → MP2.AppState → ApiResult R × MP2.AppState)
    (st : MP2.AppState) (x_api_key : Option String) :
    (x_api_key = none →
      (MP2.runProtected handler st x_api_key).1.status = 422 ∧
      (MP2.runProtected handler st x_api_key).2.1 = st ∧
      (MP2.runProtected handler st x_api_key).2.2 = false) ∧
    (∀ k, x_api_key = some k → lookupKey st.users k = none →
      (MP2.runProtected handler st x_api_key).1 = .err ⟨401, "Invalid API Key"⟩ ∧
      (MP2.runProtected handler st x_api_key).2.1 = st ∧
      (MP2.runProtected handler st x_api_key).2.2 = false) := by
  constructor
  · intro h
    subst h
    exact ⟨rfl, rfl, rfl⟩
  · intro k hk hu
    subst hk
    simp [MP2.runProtected, MP2.authenticate_user, hu, ApiResult.status]

/-- C3 witness: an unknown key against the seed registries, through the
amended theorem. -/
theorem unauthenticated_request_no_side_effect_witness :
    (MP2.runProtected (MP2.list_models none 10) ⟨MP2.MODELS, MP2.USERS⟩
        (some "key-999")).1 = .err ⟨401, "Invalid API Key"⟩ ∧
    (MP2.runProtected (MP2.list_models none 10) ⟨MP2.MODELS, MP2.USERS⟩
        (some "key-999")).2.1 = ⟨MP2.MODELS, MP2.USERS⟩ :=
  ⟨((unauthenticated_request_no_side_effect (MP2.list_models none 10)
      ⟨MP2.MODELS, MP2.USERS⟩ (some "key-999")).2 "key-999" rfl (by decide)).1,
   ((unauthenticated_request_no_side_effect (MP2.list_models none 10)
      ⟨MP2.MODELS, MP2.USERS⟩ (some "key-999")).2 "key-999" rfl (by decide)).2.1⟩

/-- C6: the catch-all failure handler answers any two unclassified
failures with caller-visible responses that are identical apart from the
correlation id — status 500, the fixed code `internal_error` and the fixed
generic message, independent of the exception — while the exception's
type, message and traceback are written only to the server-side log record
keyed by the request id. -/
theorem unexpected_failure_generic_response (rid ep uid rid2 ep2 uid2 : String)
    (e1 e2 : ErrCtx.Exc) :
    (ErrCtx.handle_unexpected rid ep uid e1).2 =
      (500, { (ErrCtx.handle_unexpected rid2 ep2 uid2 e2).2.2 with request_id := rid }) ∧
    (ErrCtx.handle_unexpected rid ep uid e1).2.2 =
      { error := "internal_error", message := "An unexpected error occurred",
        request_id := rid,
        support := "Include the request_id above when contacting support" } ∧
    (ErrCtx.handle_unexpected rid ep uid e1).1 =
      { event := "unhandled_exception", request_id := rid, endpoint := ep,
        exception_type := e1.typeName, exception_message := e1.message,
        user_id := uid, traceback := e1.traceback } :=
  ⟨rfl, rfl, rfl⟩

/-- C4 counterexample: a free-tier request for more than 1000 max tokens
naming the registered model `""` — the empty string is a key of a
reachable registry state in which the default model has been deleted —
answers 404, not 403: Python `or` treats the empty model name as falsy
and resolves the (absent) default model instead. -/
theorem free_tier_over_ceiling_404_on_empty_model :
    MP2.create_chat_completion [("", ⟨"", "Empty-name model", .openai, 8192⟩)]
        ⟨some "", [⟨"user", "hi"⟩], 2000⟩ ⟨1, "user1@example.com", "free"⟩ =
      .err ⟨404, "Model gpt-4 not found"⟩ ∧
    ¬ MP2.create_chat_completion [("", ⟨"", "Empty-name model", .openai, 8192⟩)]
        ⟨some "", [⟨"user", "hi"⟩], 2000⟩ ⟨1, "user1@example.com", "free"⟩ =
      .err ⟨403, "Free tier users can only request up to 1000 max tokens"⟩ := by
  exact ⟨by decide, by decide⟩

/-- C4 (amended): for an authenticated chat-completion request naming a
registered model by a non-empty id (with a non-empty message list): a
free-tier user requesting more than 1000 max tokens gets a 403, while the
identical request from a pro or admin user succeeds with status 201 and a
response echoing the last message.  (A request whose model field is empty
does not name a model: Python `or` falls back to the default model.) -/
theorem free_tier_token_ceiling (models : List (String × MP2.ModelInfo))
    (request : MP2.ChatRequest) (user : MP2.User) (mid : String)
    (hmodel : request.model = some mid) (hmid : mid ≠ "")
    (hreg : (lookupKey models mid).isSome = true)
    (hmsg : request.messages ≠ []) :
    (user.tier = "free" → request.max_tokens > 1000 →
      MP2.create_chat_completion models request user =
        .err ⟨403, "Free tier users can only request up to 1000 max tokens"⟩) ∧
    (user.tier = "pro" ∨ user.tier = "admin" →
      ∃ resp last, request.messages.getLast? = some last ∧
        MP2.create_chat_completion models request user = .ok 201 resp ∧
        resp.content =
          s!"This is a generated response based on your input: '{last.content}'") := by
  obtain ⟨m, hm⟩ := Option.isSome_iff_exists.mp hreg
  constructor
  · intro htier hmt
    simp [MP2.create_chat_completion, MP2.get_settings, MP2.validate_model,
      MP2.orDefault, hmodel, hmid, hm, htier, hmt]
  · intro htier
    have hcond : ¬ (user.tier = "free" ∧ request.max_tokens > 1000) := by
      rcases htier with h | h <;> simp [h]
    cases hl : request.messages.getLast? with
    | none => exact absurd (List.getLast?_eq_none_iff.mp hl) hmsg
    | some last =>
      have hcc : MP2.create_chat_completion models request user =
          .ok 201 ⟨"response-123", m.id,
            s!"This is a generated response based on your input: '{last.content}'",
            (request.messages.map (fun x => wordCount x.content)).sum, 10⟩ := by
        simp [MP2.create_chat_completion, MP2.get_settings, MP2.validate_model,
          MP2.orDefault, hmodel, hmid, hm, hl, hcond]
      exact ⟨_, last, rfl, hcc, rfl⟩

/-- C4 witness: the same over-ceiling request from the free user (403) and
from the pro user (201 echo), through the theorem. -/
theorem free_tier_token_ceiling_witness :
    MP2.create_chat_completion MP2.MODELS
        ⟨some "gpt-4", [⟨"user", "hi there"⟩], 2000⟩ ⟨1, "user1@example.com", "free"⟩ =
      .err ⟨403, "Free tier users can only request up to 1000 max tokens"⟩ ∧
    ∃ resp last,
      (MP2.ChatRequest.messages ⟨some "gpt-4", [⟨"user", "hi there"⟩], 2000⟩).getLast?
        = some last ∧
      MP2.create_chat_completion MP2.MODELS
        ⟨some "gpt-4", [⟨"user", "hi there"⟩], 2000⟩ ⟨2, "user2@example.com", "pro"⟩ =
        .ok 201 resp ∧
      resp.content =
        s!"This is a generated response based on your input: '{last.content}'" :=
  ⟨(free_tier_token_ceiling MP2.MODELS ⟨some "gpt-4", [⟨"user", "hi there"⟩], 2000⟩
      ⟨1, "user1@example.com", "free"⟩ "gpt-4" rfl (by decide) (by decide) (by decide)).1
      rfl (by decide),
   (free_tier_token_ceiling MP2.MODELS ⟨some "gpt-4", [⟨"user", "hi there"⟩], 2000⟩
      ⟨2, "user2@example.com", "pro"⟩ "gpt-4" rfl (by decide) (by decide) (by decide)).2
      (Or.inl rfl)⟩

/-- Every log line an endpoint of the request-ID app emits carries the
request id stored in the request state. -/
theorem call_endpoint_logs_tagged (route : ReqID.Route) (rid : String) :
    ∀ l ∈ (ReqID.call_endpoint route rid).2, l.requestId = rid := by
  cases route with
  | health => simp [ReqID.call_endpoint]
  | getConversation cid =>
    cases h : lookupKey ReqID.conversations cid <;> simp [ReqID.call_endpoint, h]
  | chat model msg_count =>
    by_cases h : model ∈ ReqID.MODELS <;> simp [ReqID.call_endpoint, h]

/-- C5: the request-ID middleware uses the client-supplied header value
when present and the freshly generated id otherwise, and that one id is
(i) stored in the request state, (ii) carried by every log line emitted
for the request, and (iii) echoed in the response's `X-Request-ID` header;
the id is assigned before any endpoint logic runs (the middleware's
`request_start` line precedes the endpoint's lines, and the endpoint runs
with the id already in the state). -/
theorem request_id_three_places (genId : String) (hdr : Option String)
    (route : ReqID.Route) :
    ((∀ v, hdr = some v → (ReqID.dispatch genId hdr route).2.2 = v) ∧
     (hdr = none → (ReqID.dispatch genId hdr route).2.2 = genId)) ∧
    (ReqID.dispatch genId hdr route).1.headers =
      [("X-Request-ID", (ReqID.dispatch genId hdr route).2.2)] ∧
    (∀ l ∈ (ReqID.dispatch genId hdr route).2.1,
      l.requestId = (ReqID.dispatch genId hdr route).2.2) ∧
    (ReqID.dispatch genId hdr route).2.1.head? =
      some ⟨(ReqID.dispatch genId hdr route).2.2, "request_start"⟩ ∧
    (ReqID.dispatch genId hdr route).2.1.tail.dropLast =
      (ReqID.call_endpoint route ((ReqID.dispatch genId hdr route).2.2)).2 := by
  refine ⟨⟨?_, ?_⟩, rfl, ?_, rfl, ?_⟩
  · intro v hv
    subst hv
    rfl
  · intro h
    subst h
    rfl
  · intro l hl
    simp only [ReqID.dispatch] at hl ⊢
    rcases List.mem_cons.mp hl with h | h
    · subst h
      rfl
    rcases List.mem_append.mp h with h2 | h2
    · exact call_endpoint_logs_tagged route _ l h2
    · have h3 := List.mem_singleton.mp h2
      subst h3
      rfl
  · simp [ReqID.dispatch]

/-- C5 witness: a request without the header, through the theorem. -/
theorem request_id_three_places_witness :
    (ReqID.dispatch "fresh" none (.getConversation "conv_9")).2.2 = "fresh" :=
  (request_id_three_places "fresh" none (.getConversation "conv_9")).1.2 rfl
